import Mathlib

/-!
Verification of the experiment execution engine of the llm_experiment_lab
repository: a shallow embedding, in Lean 4, of the API client
(llm_experiment_lab/api/client.py), the run coordinator
(llm_experiment_lab/core/experiment.py), the statistics record
(llm_experiment_lab/core/statistics.py) and the evaluator
(llm_experiment_lab/core/evaluator.py), together with theorems settling
the frozen claims about this code.

Modelling conventions:
- Python floats are modelled as rationals; the only operations the
  embedded code performs on them are exact comparisons with 0.0 and
  fixed-point rendering.
- JSON values are modelled by the inductive JVal below; JSON texts and
  json.loads are kept abstract behind a decode parameter of type
  String to Option JVal, since the claims are about what the code does
  with parsed values, not about the textual JSON grammar.
- Python dicts used as JSON objects are association lists preserving
  insertion order, as Python dicts do.
-/

/-- A JSON value as manipulated by the client code: strings, integers,
general numbers, booleans, null, arrays and objects (insertion-ordered
association lists). -/
inductive JVal where
  | str (s : String)
  | int (n : Int)
  | num (q : Rat)
  | bool (b : Bool)
  | null
  | arr (xs : List JVal)
  | obj (kvs : List (String × JVal))
deriving Repr

/-- Association-list lookup, the embedding of a Python dict access
d.get(k) (first binding wins, as in an insertion-ordered dict where
keys are unique). -/
def jlookup (kvs : List (String × JVal)) (k : String) : Option JVal :=
  match kvs with
  | [] => none
  | (k₀, v) :: rest => if k₀ = k then some v else jlookup rest k

/-- Embedding of the messages list built by chat_completion and
chat_completion_stream (client.py lines 70 to 73 and 240 to 243): a
system message then a user message. -/
def chatMessages (system_prompt user_prompt : String) : JVal :=
  JVal.arr
    [ JVal.obj [("role", JVal.str "system"), ("content", JVal.str system_prompt)],
      JVal.obj [("role", JVal.str "user"), ("content", JVal.str user_prompt)] ]

/-- Python truthiness of an Optional list of strings, as tested by
the statement if stop: in client.py (None and the empty list are
falsy). -/
def stopTruthy (stop : Option (List String)) : Bool :=
  match stop with
  | none => false
  | some xs => !xs.isEmpty

/-- The optional request fields appended by both chat_completion
(client.py lines 82 to 95) and chat_completion_stream (lines 253 to
266): top_k only if positive, stop only if a non-empty list,
max_tokens only if positive, the two penalties only if nonzero. -/
def optionalRequestFields (top_k : Int) (stop : Option (List String))
    (max_tokens : Int) (frequency_penalty presence_penalty : Rat) :
    List (String × JVal) :=
  (if top_k > 0 then [("top_k", JVal.int top_k)] else []) ++
  (if stopTruthy stop then [("stop", JVal.arr ((stop.getD []).map JVal.str))] else []) ++
  (if max_tokens > 0 then [("max_tokens", JVal.int max_tokens)] else []) ++
  (if frequency_penalty ≠ 0 then [("frequency_penalty", JVal.num frequency_penalty)] else []) ++
  (if presence_penalty ≠ 0 then [("presence_penalty", JVal.num presence_penalty)] else [])

/-- The request payload built by chat_completion (client.py lines 75
to 95): required fields model, messages, temperature, top_p, then the
conditionally included optional fields. -/
def chatCompletionRequestData (model system_prompt user_prompt : String)
    (temperature top_p : Rat) (top_k : Int) (stop : Option (List String))
    (max_tokens : Int) (frequency_penalty presence_penalty : Rat) :
    List (String × JVal) :=
  [ ("model", JVal.str model),
    ("messages", chatMessages system_prompt user_prompt),
    ("temperature", JVal.num temperature),
    ("top_p", JVal.num top_p) ] ++
  optionalRequestFields top_k stop max_tokens frequency_penalty presence_penalty

/-- The request payload built by chat_completion_stream (client.py
lines 245 to 266): same as the buffered one plus a stream true field
before the optional fields. -/
def chatCompletionStreamRequestData (model system_prompt user_prompt : String)
    (temperature top_p : Rat) (top_k : Int) (stop : Option (List String))
    (max_tokens : Int) (frequency_penalty presence_penalty : Rat) :
    List (String × JVal) :=
  [ ("model", JVal.str model),
    ("messages", chatMessages system_prompt user_prompt),
    ("temperature", JVal.num temperature),
    ("top_p", JVal.num top_p),
    ("stream", JVal.bool true) ] ++
  optionalRequestFields top_k stop max_tokens frequency_penalty presence_penalty

/-- A named endpoint entry as stored in the client list of endpoint
dicts: each of the keys id, url and api_key may be absent
(client.py get_endpoint_config reads them with dict.get). -/
structure EndpointEntry where
  id? : Option String
  url? : Option String
  api_key? : Option String
deriving Repr, DecidableEq

/-- The client-level configuration relevant to endpoint resolution
(client.py constructor, lines 24 to 37). -/
structure ClientConfig where
  api_key : String
  base_url : String
  endpoints : List EndpointEntry
  default_endpoint_id : String
deriving Repr, DecidableEq

/-- Embedding of LLMAPIClient.get_endpoint_config (client.py lines 39
to 47): an empty endpoint_id is replaced by the default endpoint id,
then the endpoint list is scanned for the first entry whose id equals
the resolved id; a match returns its url and api_key with the client
defaults filling absent keys, and no match returns the client
defaults. -/
def get_endpoint_config (c : ClientConfig) (endpoint_id : String) :
    String × String :=
  let eid := if endpoint_id = "" then c.default_endpoint_id else endpoint_id
  match c.endpoints.find? (fun ep => ep.id? = some eid) with
  | some ep => (ep.url?.getD c.base_url, ep.api_key?.getD c.api_key)
  | none => (c.base_url, c.api_key)

/-- Embedding of the usage-counter extraction of the buffered success
path (client.py lines 146 and 152 to 154): usage.get with default 0
for each of prompt_tokens, completion_tokens and total_tokens. The
result is the triple (prompt_tokens, completion_tokens, total_tokens)
stored in the returned ModelResponse. -/
def extractUsageTokens (usage : List (String × JVal)) : Int × Int × Int :=
  let get0 : String → Int := fun k =>
    match jlookup usage k with
    | some (JVal.int n) => n
    | _ => 0
  (get0 "prompt_tokens", get0 "completion_tokens", get0 "total_tokens")

/-- The normalized result record produced by every completion call,
embedding the ModelResponse dataclass (client.py lines 10 to 20).
Wall-clock response times are outside the embedding and are carried as
an uninterpreted rational (filled with 0 by the outcome functions
below). -/
structure ModelResponse where
  content : String
  prompt_tokens : Int
  completion_tokens : Int
  total_tokens : Int
  response_time : Rat
  raw_request : List (String × JVal)
  raw_response : List (String × JVal)
  reasoning : Option String
  error : Option String
deriving Repr

/-- A Python truthiness test for an optional string, used where the
source tests a string value with or / if (absent and empty are both
falsy). -/
def strTruthy : Option String → Bool
  | none => false
  | some s => s ≠ ""

/-- Embedding of the buffered success path of chat_completion
(client.py lines 144 to 159): navigate to choices[0].message, read
content with default empty, read usage with default empty dict and
extract the three token counters with default 0, and read the
reasoning channel checking reasoning_content then thinking. Returns
none on the shapes where the Python code would raise a KeyError,
IndexError or AttributeError into its generic exception handler
(missing or non-list choices, non-object first choice, missing or
non-object message). Non-string content or reasoning payloads are
treated as absent; the claims only concern string payloads. -/
def parseBufferedResponse (response_json : List (String × JVal))
    (rawRequest : List (String × JVal)) : Option ModelResponse :=
  match jlookup response_json "choices" with
  | some (JVal.arr (JVal.obj c0 :: _)) =>
    match jlookup c0 "message" with
    | some (JVal.obj mkvs) =>
      let content := match jlookup mkvs "content" with
        | some (JVal.str s) => s
        | _ => ""
      let usage := match jlookup response_json "usage" with
        | some (JVal.obj u) => u
        | _ => []
      let tks := extractUsageTokens usage
      let rc : Option String := match jlookup mkvs "reasoning_content" with
        | some (JVal.str s) => some s
        | _ => none
      let th : Option String := match jlookup mkvs "thinking" with
        | some (JVal.str s) => some s
        | _ => none
      let reasoning := if strTruthy rc then rc else th
      some
        { content := content
          prompt_tokens := tks.1
          completion_tokens := tks.2.1
          total_tokens := tks.2.2
          response_time := 0
          raw_request := rawRequest
          raw_response := response_json
          reasoning := reasoning
          error := none }
    | _ => none
  | _ => none

/-- Embedding of the HTTPStatusError message construction of the
buffered handler (client.py lines 161 to 172): the message starts as
HTTP status colon body, with the request URL appended in parentheses;
if the body parses as a JSON object whose error field is an object
with a string message, that message replaces it. Every other shape
(unparseable body, non-object body, non-object error field, missing
message) leaves the fallback, matching the except-pass guard around
the lookup chain. Non-string message payloads are outside the
modelled domain and also map to the fallback. The streaming handler
(lines 396 to 407) contains the same text, but is embedded separately
below because it never gets to build a message. -/
def httpErrorMessage (status : Nat) (bodyText endpoint : String)
    (parsedBody : Option JVal) : String :=
  let fallback :=
    "HTTP " ++ toString status ++ ": " ++ bodyText ++ " (URL: " ++ endpoint ++ ")"
  match parsedBody with
  | some (JVal.obj kvs) =>
    match jlookup kvs "error" with
    | some (JVal.obj ekvs) =>
      match jlookup ekvs "message" with
      | some (JVal.str m) => m
      | _ => fallback
    | _ => fallback
  | _ => fallback

/-- Embedding of the ModelResponse returned by the buffered
HTTPStatusError handler (client.py lines 161 to 183): empty content,
zero token counts, empty raw response, no reasoning, and the error
message built by httpErrorMessage. In buffered mode the response body
was fully read by client.post, so e.response.text is available and
the handler always returns this record. -/
def httpStatusErrorResponse (status : Nat) (bodyText endpoint : String)
    (parsedBody : Option JVal) (rawRequest : List (String × JVal)) :
    ModelResponse :=
  { content := ""
    prompt_tokens := 0
    completion_tokens := 0
    total_tokens := 0
    response_time := 0
    raw_request := rawRequest
    raw_response := []
    reasoning := none
    error := some (httpErrorMessage status bodyText endpoint parsedBody) }

/-- Embedding of the streaming HTTPStatusError handler (client.py
lines 396 to 418): its first statement interpolates e.response.text,
but the streamed response body has not been read when
raise_for_status fires inside the client.stream block (lines 287 to
301), so that access raises ResponseNotRead inside the handler; the
sibling except clauses of the same try cannot catch it, the exception
propagates out of chat_completion_stream, and the handler never
constructs a record. none models the absence of any returned record;
the parameters mirror the information available at the raise. -/
def streamHttpStatusErrorOutcome (_status : Nat) (_endpoint : String)
    (_rawRequest : List (String × JVal)) : Option ModelResponse :=
  none

/-- Loop state of the streaming read loop of chat_completion_stream
(client.py lines 275 to 277 and 303 to 306), together with the list
of (content chunk, reasoning chunk) pairs delivered to the per-chunk
callback, recorded in order of delivery. -/
structure StreamLoopState where
  cancelled : Bool
  done_receiving : Bool
  accumulated_content : List String
  accumulated_reasoning : List String
  total_completion_tokens : Int
  prompt_tokens_from_stream : Int
  events : List (String × String)
  poisoned : Bool
deriving Repr

/-- The initial loop state, all accumulators empty and unpoisoned. -/
def initStreamState : StreamLoopState :=
  { cancelled := false
    done_receiving := false
    accumulated_content := []
    accumulated_reasoning := []
    total_completion_tokens := 0
    prompt_tokens_from_stream := 0
    events := []
    poisoned := false }

/-- Python truthiness of a JSON value, as tested by the statements
if not choices, if content_chunk or reasoning_chunk and
if reasoning_chunk in the loop body: empty strings, zero numbers,
false, null and empty containers are falsy. -/
def pyTruthy : JVal → Bool
  | JVal.str s => s ≠ ""
  | JVal.int n => n ≠ 0
  | JVal.num q => q ≠ 0
  | JVal.bool b => b
  | JVal.null => false
  | JVal.arr xs => !xs.isEmpty
  | JVal.obj kvs => !kvs.isEmpty

/-- The integer a usage counter value contributes to Python integer
arithmetic: an int is itself and a bool is its int value (bool is an
int subclass). Any other value makes the later addition
prompt_tokens_from_stream + total_completion_tokens either raise an
uncaught TypeError or leave the integer domain of this embedding, so
it has no integer reading. -/
def pyIntVal? : JVal → Option Int
  | JVal.int n => some n
  | JVal.bool b => some (if b then 1 else 0)
  | _ => none

/-- What one line of the streamed body does to the loop state,
embedding one iteration of the async-for body of
chat_completion_stream (client.py lines 313 to 342), with json.loads
abstracted by the decode parameter. The fields are applied in source
order: the done flag, then the optional chunk append plus callback,
then either the raised in-loop exception (which the generic handler
at lines 434 to 451 catches) or the optional usage overwrite. The
poison flag marks a line after which the call can no longer return a
modelled record: the line appends a non-string value to an
accumulator, so every exit path raises an uncaught TypeError at its
join, or it stores a usage counter with no integer reading, making
the token addition of every non-handler exit raise or leave the
integer domain. -/
structure StreamLineEffect where
  isDone : Bool
  append? : Option (String × String)
  usage? : Option (Int × Int)
  raise? : Option String
  poison : Bool
deriving Repr

/-- The no-op effect (a skipped line). -/
def skipEffect : StreamLineEffect :=
  { isDone := false, append? := none, usage? := none, raise? := none,
    poison := false }

/-- The effect raising the given exception message before touching the
state; the message approximates the Python exception text. -/
def raiseEffect (msg : String) : StreamLineEffect :=
  { isDone := false, append? := none, usage? := none, raise? := some msg,
    poison := false }

/-- The effect of a line that appends a non-string payload to an
accumulator (a delta whose content is JSON null or another non-string
while the append fires, or a truthy non-string reasoning value):
Python appends the raw value and every later join of that accumulator
raises an uncaught TypeError, including the one inside the generic
exception handler, so the call raises instead of returning. The
poisoned contents and this line usage are never observable in a
returned record and are not modelled; the per-chunk callback is still
invoked with the raw values before the eventual crash, and those
invocations are not recorded either. -/
def poisonEffect : StreamLineEffect :=
  { isDone := false, append? := none, usage? := none, raise? := none,
    poison := true }

/-- Whitespace as stripped by the Python str.strip with no argument
(the ASCII whitespace characters; the streamed lines the claims range
over contain no exotic Unicode whitespace). -/
def isPySpace (c : Char) : Bool :=
  c = ' ' ∨ c = '\t' ∨ c = '\n' ∨ c = '\r' ∨ c = '\x0b' ∨ c = '\x0c'

/-- Embedding of the Python str.strip(): drop whitespace from both
ends, working on the character list of the string. -/
def pyStrip (s : String) : String :=
  String.mk (((s.data.dropWhile isPySpace).reverse.dropWhile isPySpace).reverse)

/-- Embedding of the Python str.startswith on whole strings. -/
def pyStartsWith (s pre : String) : Bool :=
  pre.data.isPrefixOf s.data

/-- Embedding of the Python slice s[6:] (drop the first six
characters). -/
def pyDrop6 (s : String) : String :=
  String.mk (s.data.drop 6)

/-- Computes the effect of one received line, translated from the loop
body of chat_completion_stream (client.py lines 313 to 342):
blank lines and lines without the data prefix are skipped; the DONE
sentinel sets done_receiving and continues; a data line whose payload
does not parse is skipped; otherwise content_chunk is
delta.get(content, empty) (so JSON null reads as Python None, not as
the empty string), reasoning_chunk is the Python or of the
reasoning_content and thinking values, the append plus callback fire
when either value is truthy, and a usage object overwrites the token
counters (last write wins, with get defaults 0). Shapes on which the
in-loop attribute accesses raise an exception the generic handler
catches (non-object payload, truthy non-list choices, non-object
first choice, non-object delta or usage) raise here; a fired append
whose content is not a string (null included) or whose appended
reasoning is not a string poisons the run, as does a usage counter
with no integer reading, because those values crash or derail every
later exit instead of being caught. -/
def streamLineEffect (decode : String → Option JVal) (line : String) :
    StreamLineEffect :=
  if pyStrip line = "" ∨ ¬ pyStartsWith line "data: " then skipEffect
  else if pyStrip line = "data: [DONE]" then
    { isDone := true, append? := none, usage? := none, raise? := none,
      poison := false }
  else
    match decode (pyDrop6 line) with
    | none => skipEffect
    | some (JVal.obj kvs) =>
      let step2 : List (String × JVal) → StreamLineEffect := fun dkvs =>
        let contentVal := (jlookup dkvs "content").getD (JVal.str "")
        let r1 := (jlookup dkvs "reasoning_content").getD (JVal.str "")
        let r2 := (jlookup dkvs "thinking").getD (JVal.str "")
        let reasoningVal := if pyTruthy r1 then r1 else r2
        let app? : Option (Option (String × String)) :=
          if pyTruthy contentVal || pyTruthy reasoningVal then
            match contentVal, reasoningVal with
            | JVal.str c, JVal.str r => some (some (c, r))
            | JVal.str c, rv =>
              if pyTruthy rv then none else some (some (c, ""))
            | _, _ => none
          else some none
        match app? with
        | none => poisonEffect
        | some app =>
          match jlookup kvs "usage" with
          | none =>
            { isDone := false, append? := app, usage? := none, raise? := none,
              poison := false }
          | some (JVal.obj ukvs) =>
            match pyIntVal? ((jlookup ukvs "completion_tokens").getD (JVal.int 0)),
                  pyIntVal? ((jlookup ukvs "prompt_tokens").getD (JVal.int 0)) with
            | some ct, some pt =>
              { isDone := false, append? := app, usage? := some (ct, pt),
                raise? := none, poison := false }
            | _, _ =>
              { isDone := false, append? := app, usage? := none,
                raise? := none, poison := true }
          | some _ =>
            { isDone := false, append? := app, usage? := none,
              raise? := some "AttributeError", poison := false }
      match jlookup kvs "choices" with
      | none => skipEffect
      | some (JVal.arr []) => skipEffect
      | some (JVal.arr (JVal.obj c0 :: _)) =>
        match jlookup c0 "delta" with
        | none => step2 []
        | some (JVal.obj dkvs) => step2 dkvs
        | some _ => raiseEffect "AttributeError"
      | some (JVal.arr (_ :: _)) => raiseEffect "AttributeError"
      | some v => if pyTruthy v then raiseEffect "AttributeError" else skipEffect
    | some _ => raiseEffect "AttributeError"

/-- The loop state after the done flag, poison marker and chunk append
of one line were applied, before a possible raise: the exception
handlers see these partially extended accumulators. -/
def streamStateAfterAppend (st : StreamLoopState) (e : StreamLineEffect) :
    StreamLoopState :=
  let st1 := { st with
    done_receiving := st.done_receiving || e.isDone
    poisoned := st.poisoned || e.poison }
  match e.append? with
  | none => st1
  | some (c, r) =>
    { st1 with
      accumulated_content := st1.accumulated_content ++ [c]
      accumulated_reasoning :=
        if r ≠ "" then st1.accumulated_reasoning ++ [r]
        else st1.accumulated_reasoning
      events := st1.events ++ [(c, r)] }

/-- The loop state after a non-raising line was fully applied,
including the last-write-wins usage overwrite. -/
def streamStateAfterLine (st : StreamLoopState) (e : StreamLineEffect) :
    StreamLoopState :=
  match e.usage? with
  | none => streamStateAfterAppend st e
  | some (ct, pt) =>
    { streamStateAfterAppend st e with
      total_completion_tokens := ct
      prompt_tokens_from_stream := pt }

/-- Applies one line to the loop state: the done flag and the chunk
append happen before a possible raise, and the usage overwrite happens
only on lines that do not raise, as in the source order. Errors carry
the state visible to the exception handlers. -/
def processStreamLine (decode : String → Option JVal)
    (st : StreamLoopState) (line : String) :
    Except (String × StreamLoopState) StreamLoopState :=
  let e := streamLineEffect decode line
  match e.raise? with
  | some msg => Except.error (msg, streamStateAfterAppend st e)
  | none => Except.ok (streamStateAfterLine st e)

/-- The streaming read loop (client.py lines 307 to 344): before each
line the shared cancellation flag is checked (its value at the check
of line i is cancelAt i) and a set flag breaks out of the loop with
cancelled recorded; otherwise the line is processed and the loop
continues; an exception aborts the loop carrying the state at raise
time. -/
def runStreamLoop (decode : String → Option JVal) (cancelAt : Nat → Bool) :
    Nat → StreamLoopState → List String →
    Except (String × StreamLoopState) StreamLoopState
  | _, st, [] => Except.ok st
  | i, st, line :: rest =>
    if cancelAt i then Except.ok { st with cancelled := true }
    else
      match processStreamLine decode st line with
      | Except.ok st2 => runStreamLoop decode cancelAt (i + 1) st2 rest
      | Except.error e => Except.error e

/-- The joined reasoning of the loop state, None when no reasoning
chunks were accumulated (the repeated Python idiom
join if accumulated_reasoning else None). -/
def streamJoinedReasoning (st : StreamLoopState) : Option String :=
  if st.accumulated_reasoning.isEmpty then none
  else some (String.join st.accumulated_reasoning)

/-- Outcome of chat_completion_stream on the 2xx path, after response
headers were received with the cancellation flag still clear,
embedding client.py lines 303 to 394 together with the generic
exception handler at lines 434 to 451: an in-loop exception returns
the accumulated partial content with that error and no prompt
tokens; a cancelled loop returns the partial content with error
Cancelled; a loop that ended without the DONE sentinel returns the
partial content with error Stream ended unexpectedly; otherwise the
success record with the streaming summary raw response is returned.
none models a poisoned run: every one of these exits joins the
accumulators (the generic handler included) and all but the handler
sum the token counters, so a poisoned run raises an uncaught
TypeError, or leaves the integer domain of the embedding, instead of
returning any record. -/
def chatCompletionStreamOutcome (decode : String → Option JVal)
    (cancelAt : Nat → Bool) (lines : List String)
    (rawRequest : List (String × JVal)) : Option ModelResponse :=
  match runStreamLoop decode cancelAt 0 initStreamState lines with
  | Except.error (msg, st) =>
    if st.poisoned then none
    else some
      { content := String.join st.accumulated_content
        prompt_tokens := 0
        completion_tokens := st.total_completion_tokens
        total_tokens := st.total_completion_tokens
        response_time := 0
        raw_request := rawRequest
        raw_response := []
        reasoning := streamJoinedReasoning st
        error := some msg }
  | Except.ok st =>
    if st.poisoned then none
    else if st.cancelled then some
      { content := String.join st.accumulated_content
        prompt_tokens := st.prompt_tokens_from_stream
        completion_tokens := st.total_completion_tokens
        total_tokens := st.prompt_tokens_from_stream + st.total_completion_tokens
        response_time := 0
        raw_request := rawRequest
        raw_response := []
        reasoning := streamJoinedReasoning st
        error := some "Cancelled" }
    else if !st.done_receiving then some
      { content := String.join st.accumulated_content
        prompt_tokens := st.prompt_tokens_from_stream
        completion_tokens := st.total_completion_tokens
        total_tokens := st.prompt_tokens_from_stream + st.total_completion_tokens
        response_time := 0
        raw_request := rawRequest
        raw_response := []
        reasoning := streamJoinedReasoning st
        error := some "Stream ended unexpectedly" }
    else some
      { content := String.join st.accumulated_content
        prompt_tokens := st.prompt_tokens_from_stream
        completion_tokens := st.total_completion_tokens
        total_tokens := st.prompt_tokens_from_stream + st.total_completion_tokens
        response_time := 0
        raw_request := rawRequest
        raw_response :=
          [ ("streaming", JVal.bool true),
            ("usage", JVal.obj
              [ ("prompt_tokens", JVal.int st.prompt_tokens_from_stream),
                ("completion_tokens", JVal.int st.total_completion_tokens),
                ("total_tokens",
                  JVal.int (st.prompt_tokens_from_stream + st.total_completion_tokens)) ]),
            ("response_time", JVal.num 0),
            ("content", JVal.str (String.join st.accumulated_content)),
            ("reasoning",
              (match streamJoinedReasoning st with
               | none => JVal.null
               | some r => JVal.str r)) ]
        reasoning := streamJoinedReasoning st
        error := none }

/-- A line is benign when processing it neither raises in the loop nor
poisons the run: anything skipped, the DONE sentinel, unparseable
payloads, and chunk objects of the expected shape with string (or
absent) delta payloads and integer usage counters. -/
def lineBenign (decode : String → Option JVal) (line : String) : Bool :=
  (streamLineEffect decode line).raise?.isNone
    && !(streamLineEffect decode line).poison

/-- Whether a line is the DONE sentinel as tested by the loop (a data
line trimming to the sentinel text). -/
def lineIsDone (decode : String → Option JVal) (line : String) : Bool :=
  (streamLineEffect decode line).isDone

/-- The content chunk a line appends to the accumulator, if any. -/
def lineContentChunk? (decode : String → Option JVal) (line : String) :
    Option String :=
  ((streamLineEffect decode line).append?).map Prod.fst

/-- One response dict as consumed by Evaluator._build_eval_prompt
(evaluator.py lines 121 to 133): only the keys the builder reads are
modelled, each optional where the source uses dict.get with a
default. -/
structure RespDict where
  content : String
  model? : Option String
  stats_response_time : Option Rat
  stats_total_tokens : Option Int
  prompt_modifier : String
deriving Repr, DecidableEq

/-- Fixed-point rendering with two decimals of a nonnegative rational,
standing in for the Python format spec .2f applied to the response
time (the claims do not depend on the tie-breaking of float
rounding). -/
def format2f (q : Rat) : String :=
  let n : Int := round (q * 100)
  toString (n / 100) ++ "." ++
    (if (n % 100).natAbs < 10 then "0" else "") ++ toString (n % 100).natAbs

/-- One numbered response block of the default evaluation prompt
(evaluator.py lines 121 to 133): the block number, model name with
default Unknown, response time with two decimals, total token count,
the optional modifier disclosure line, then the content. -/
def respBlock (consider_modifier : Bool) (i : Nat) (r : RespDict) : String :=
  let model_name := r.model?.getD "Unknown"
  let time_val := r.stats_response_time.getD 0
  let total_tokens := r.stats_total_tokens.getD 0
  let modifier_info :=
    if consider_modifier ∧ r.prompt_modifier ≠ "" then
      "\nДополнительный промпт модели: " ++ r.prompt_modifier
    else ""
  "Ответ " ++ toString i ++ " (модель: " ++ model_name ++ ", время: " ++
    format2f time_val ++ "с, токены: " ++ toString total_tokens ++ ")" ++
    modifier_info ++ ":\n" ++ r.content ++ "\n\n"

/-- The fixed header of the default evaluation prompt (evaluator.py
lines 113 to 119), restating the original system and user prompts. -/
def evalPromptHeader (system_prompt user_prompt : String) : String :=
  "Сравните следующие ответы на один и тот же запрос и предоставьте рейтинг от лучшего к худшему с краткими пояснениями.\n\n" ++
  "Системный промпт: " ++ system_prompt ++ "\n\n" ++
  "Пользовательский промпт: " ++ user_prompt ++ "\n\n"

/-- The fixed trailing instructions of the default evaluation prompt
(evaluator.py lines 135 to 139). -/
def evalPromptTrailer : String :=
  "Предоставьте:\n" ++
  "1. Рейтинг от лучшего (1-е место) к худшему (3-е место)\n" ++
  "2. Краткое пояснение для каждого места\n" ++
  "3. Ключевые сильные и слабые стороны каждого ответа\n" ++
  "4. Учтите при оценке скорость ответа и количество затраченных токенов"

/-- List enumeration starting at a given index, the embedding of the
Python enumerate(responses, 1). -/
def enumFrom : Nat → List α → List (Nat × α)
  | _, [] => []
  | i, x :: xs => (i, x) :: enumFrom (i + 1) xs

/-- One iteration of the block-building loop (evaluator.py lines 121
to 133): append the numbered block when the content of the response is
truthy, otherwise leave the prompt unchanged. -/
def evalStep (consider_modifier : Bool) (acc : String) (p : Nat × RespDict) :
    String :=
  if p.2.content ≠ "" then acc ++ respBlock consider_modifier p.1 p.2 else acc

/-- The block an enumerated response contributes, if any: the numbered
block when its content is non-empty, nothing otherwise. -/
def evalSelect (consider_modifier : Bool) (p : Nat × RespDict) :
    Option String :=
  if p.2.content ≠ "" then some (respBlock consider_modifier p.1 p.2) else none

/-- Embedding of the no-template branch of
Evaluator._build_eval_prompt (evaluator.py lines 113 to 141): the
header, then, iterating over enumerate(responses, 1), one numbered
block for each response whose content is truthy (non-empty), then the
trailing instructions. -/
def buildEvalPromptDefault (system_prompt user_prompt : String)
    (responses : List RespDict) (consider_modifier : Bool) : String :=
  ((enumFrom 1 responses).foldl (evalStep consider_modifier)
    (evalPromptHeader system_prompt user_prompt)) ++ evalPromptTrailer

/-- The list of numbered blocks the default evaluation prompt
contains: one per response with non-empty content, numbered by its
position in the full input list. -/
def evalBlocks (consider_modifier : Bool) (responses : List RespDict) :
    List String :=
  (enumFrom 1 responses).filterMap (evalSelect consider_modifier)

/-!
Claims C1, C2 and C3 are decided by two call-signature mismatches
inside src, each an unconditional TypeError under the Python calling
convention. We therefore embed the relevant fragment of that
convention: binding a call with some positional arguments and some
keyword arguments against a parameter list, and constructing a
dataclass from keyword arguments.
-/

/-- Python binding of keyword arguments against a parameter list when
the first nPositional parameters were already filled positionally: the
call raises TypeError when a keyword names an already filled parameter
(multiple values for argument) or names no parameter at all
(unexpected keyword argument). -/
def pythonKwargBindingError (params : List String) (nPositional : Nat)
    (kwargs : List String) : Bool :=
  kwargs.any (fun k => (params.take nPositional).contains k || !params.contains k)

/-- Python dataclass construction from keyword arguments: the
generated init raises TypeError when a keyword names no declared
field. -/
def dataclassUnknownKwarg (fields kwargs : List String) : Bool :=
  kwargs.any (fun k => !fields.contains k)

/-- The fields of the ModelStats dataclass, in declaration order
(statistics.py lines 6 to 17). There is no reasoning field. -/
def modelStatsFields : List String :=
  [ "model_name", "response_time", "prompt_tokens", "completion_tokens",
    "total_tokens", "content", "raw_request", "raw_response", "timestamp",
    "error" ]

/-- The parameters of LLMAPIClient.chat_completion_stream after self,
in declaration order (client.py lines 218 to 232). There is no
custom_api_token parameter. -/
def chatCompletionStreamParams : List String :=
  [ "model", "system_prompt", "user_prompt", "temperature", "top_p", "top_k",
    "endpoint_id", "stop", "max_tokens", "frequency_penalty",
    "presence_penalty", "on_chunk" ]

/-- The number of positional arguments Experiment._run_model passes to
chat_completion_stream (experiment.py lines 143 to 151 and 159 to
167): model.name, system_prompt, full_user_prompt, temperature, top_p,
top_k, custom_endpoint and custom_api_token, the last landing in the
stop slot. -/
def runModelStreamCallPositionalCount : Nat := 8

/-- The keyword arguments of the same call in the progress-callback
branch (experiment.py lines 152 to 156); the no-callback branch
(lines 168 to 171) passes the same keywords minus on_chunk and
collides identically on stop. -/
def runModelStreamCallKwargs : List String :=
  [ "stop", "max_tokens", "frequency_penalty", "presence_penalty", "on_chunk" ]

/-- The keyword arguments of the ModelStats construction for the
synthetic per-task exception record in run_parallel (experiment.py
lines 70 to 81); reasoning is among them. -/
def runParallelSyntheticStatsKwargs : List String :=
  [ "model_name", "response_time", "prompt_tokens", "completion_tokens",
    "total_tokens", "content", "reasoning", "raw_request", "raw_response",
    "error" ]

/-- The keyword arguments of the ModelStats construction on the
already-cancelled fast path of _run_model (experiment.py lines 120 to
131); reasoning is among them. -/
def runModelCancelledStatsKwargs : List String :=
  [ "model_name", "response_time", "prompt_tokens", "completion_tokens",
    "total_tokens", "content", "reasoning", "raw_request", "raw_response",
    "error" ]

/-- The keyword arguments of the terminal ModelStats construction of
_run_model (experiment.py lines 178 to 189); reasoning is among
them. -/
def runModelFinalStatsKwargs : List String :=
  [ "model_name", "response_time", "prompt_tokens", "completion_tokens",
    "total_tokens", "content", "reasoning", "raw_request", "raw_response",
    "error" ]

/-- Embedding of the cancellation-wins-the-race overwrite of
_run_model (experiment.py lines 174 to 176): when the coordinator
flag is set and the client result is not already marked Cancelled, the
error is overwritten to Cancelled and the content emptied; otherwise
the result is returned unchanged. -/
def applyCancellationOverwrite (is_cancelled : Bool) (r : ModelResponse) :
    ModelResponse :=
  if is_cancelled ∧ r.error ≠ some "Cancelled" then
    { r with error := some "Cancelled", content := "" }
  else r

/-!
Theorems settling the claims. Helper lemmas are shared; each claim has
exactly one theorem, plus a witness when the theorem carries
hypotheses and a counterexample when the claim as frozen fails on the
code.
-/

/-- C4: building a request with top_k = -1, max_tokens = 0, zero
penalties and an empty stop list omits all five optional fields in
both buffered and streaming mode, top_k = 40 is included as the field
top_k 40, and the required fields model, messages (system then user
message), temperature and top_p are always the leading fields of both
payloads. -/
theorem request_optional_field_omission :
    ∀ (model sysp userp : String) (temperature top_p : Rat),
      (chatCompletionRequestData model sysp userp temperature top_p
          (-1) (some []) 0 0 0).map Prod.fst
        = ["model", "messages", "temperature", "top_p"] ∧
      (chatCompletionStreamRequestData model sysp userp temperature top_p
          (-1) (some []) 0 0 0).map Prod.fst
        = ["model", "messages", "temperature", "top_p", "stream"] ∧
      (chatCompletionRequestData model sysp userp temperature top_p
          40 (some []) 0 0 0).map Prod.fst
        = ["model", "messages", "temperature", "top_p", "top_k"] ∧
      jlookup (chatCompletionRequestData model sysp userp temperature top_p
          40 (some []) 0 0 0) "top_k" = some (JVal.int 40) ∧
      ∀ (top_k : Int) (stop : Option (List String)) (max_tokens : Int)
        (fp pp : Rat),
        ((chatCompletionRequestData model sysp userp temperature top_p
            top_k stop max_tokens fp pp).map Prod.fst).take 4
          = ["model", "messages", "temperature", "top_p"] ∧
        jlookup (chatCompletionRequestData model sysp userp temperature top_p
            top_k stop max_tokens fp pp) "messages"
          = some (chatMessages sysp userp) ∧
        ((chatCompletionStreamRequestData model sysp userp temperature top_p
            top_k stop max_tokens fp pp).map Prod.fst).take 5
          = ["model", "messages", "temperature", "top_p", "stream"] ∧
        jlookup (chatCompletionStreamRequestData model sysp userp temperature
            top_p top_k stop max_tokens fp pp) "messages"
          = some (chatMessages sysp userp) := by
  intro model sysp userp temperature top_p
  refine ⟨rfl, rfl, rfl, rfl, ?_⟩
  intro top_k stop max_tokens fp pp
  exact ⟨rfl, rfl, rfl, rfl⟩

/-- C5 counterexample: a successful buffered response whose usage
carries prompt_tokens 10 and completion_tokens 1 but omits
total_tokens yields total_tokens 0, not 10 + 1 = 11 as the claim
states. -/
theorem buffered_total_tokens_counterexample :
    ((parseBufferedResponse
        [ ("choices", JVal.arr
            [JVal.obj [("message", JVal.obj [("content", JVal.str "4")])]]),
          ("usage", JVal.obj
            [("prompt_tokens", JVal.int 10), ("completion_tokens", JVal.int 1)]) ]
        []).map
      (fun r => (r.prompt_tokens, r.completion_tokens, r.total_tokens)))
      = some (10, 1, 0) ∧
    some ((10 : Int), (1 : Int), (0 : Int)) ≠ some (10, 1, 10 + 1) := by
  exact ⟨rfl, by decide⟩

/-- C5 amended: for every successful buffered completion, the three
token counters of the result are read from the usage object with
default 0; in particular total_tokens equals the provider-supplied
total_tokens when present, and 0 (not prompt + completion) when the
provider omits it. -/
theorem buffered_usage_totals (response_json c0 mkvs ukvs : List (String × JVal))
    (rest : List JVal) (rawRequest : List (String × JVal))
    (hchoices : jlookup response_json "choices"
      = some (JVal.arr (JVal.obj c0 :: rest)))
    (hmsg : jlookup c0 "message" = some (JVal.obj mkvs))
    (husage : jlookup response_json "usage" = some (JVal.obj ukvs)) :
    ∃ r, parseBufferedResponse response_json rawRequest = some r ∧
      r.prompt_tokens = (match jlookup ukvs "prompt_tokens" with
        | some (JVal.int n) => n
        | _ => 0) ∧
      r.completion_tokens = (match jlookup ukvs "completion_tokens" with
        | some (JVal.int n) => n
        | _ => 0) ∧
      r.total_tokens = (match jlookup ukvs "total_tokens" with
        | some (JVal.int n) => n
        | _ => 0) ∧
      r.error = none := by
  unfold parseBufferedResponse
  rw [hchoices]
  simp only [hmsg, husage]
  exact ⟨_, rfl, by simp [extractUsageTokens], by simp [extractUsageTokens],
    by simp [extractUsageTokens], rfl⟩

/-- C5 witness: a concrete buffered response with all three usage
counters present uses the provided total. -/
theorem buffered_usage_totals_witness :
    ∃ r, parseBufferedResponse
        [ ("choices", JVal.arr
            [JVal.obj [("message", JVal.obj [("content", JVal.str "4")])]]),
          ("usage", JVal.obj
            [ ("prompt_tokens", JVal.int 3), ("completion_tokens", JVal.int 4),
              ("total_tokens", JVal.int 7) ]) ]
        [] = some r ∧
      r.prompt_tokens = 3 ∧ r.completion_tokens = 4 ∧ r.total_tokens = 7 ∧
      r.error = none := by
  exact buffered_usage_totals
    [ ("choices", JVal.arr
        [JVal.obj [("message", JVal.obj [("content", JVal.str "4")])]]),
      ("usage", JVal.obj
        [ ("prompt_tokens", JVal.int 3), ("completion_tokens", JVal.int 4),
          ("total_tokens", JVal.int 7) ]) ]
    [("message", JVal.obj [("content", JVal.str "4")])]
    [("content", JVal.str "4")]
    [ ("prompt_tokens", JVal.int 3), ("completion_tokens", JVal.int 4),
      ("total_tokens", JVal.int 7) ]
    [] [] rfl rfl rfl

/-- C6 counterexample: with no configured endpoint entries, an
override that is a full URL is not used verbatim as the base; the code
treats it as an unknown identifier and silently returns the default
base URL and credential. -/
theorem endpoint_full_url_counterexample :
    get_endpoint_config
        { api_key := "DEFKEY", base_url := "https://default.example/v1",
          endpoints := [], default_endpoint_id := "" }
        "https://custom.example/v1/chat/completions"
      = ("https://default.example/v1", "DEFKEY") ∧
    (get_endpoint_config
        { api_key := "DEFKEY", base_url := "https://default.example/v1",
          endpoints := [], default_endpoint_id := "" }
        "https://custom.example/v1/chat/completions").1
      ≠ "https://custom.example/v1/chat/completions" := by
  exact ⟨rfl, by decide⟩

/-- C6 amended: endpoint resolution is total and permissive; the
override, URL-shaped or not, is treated purely as an identifier: an
empty override behaves exactly like the configured default endpoint
id, a match in the endpoint list returns that entry with the client
defaults filling absent url or api_key, and no match (including any
full URL not registered as an id) silently returns the default base
URL and credential. -/
theorem endpoint_resolution (c : ClientConfig) (eid : String) :
    get_endpoint_config c "" = get_endpoint_config c c.default_endpoint_id ∧
    (c.endpoints.find?
        (fun ep => ep.id? = some (if eid = "" then c.default_endpoint_id else eid))
        = none →
      get_endpoint_config c eid = (c.base_url, c.api_key)) ∧
    (∀ ep, c.endpoints.find?
        (fun ep₀ => ep₀.id? = some (if eid = "" then c.default_endpoint_id else eid))
        = some ep →
      get_endpoint_config c eid
        = (ep.url?.getD c.base_url, ep.api_key?.getD c.api_key)) := by
  refine ⟨?_, ?_, ?_⟩
  · simp [get_endpoint_config]
  · intro h
    simp only [get_endpoint_config]
    rw [h]
  · intro ep h
    simp only [get_endpoint_config]
    rw [h]

/-- C6 witness: a concrete configuration exercising the unknown-id
fallback of the amended statement. -/
theorem endpoint_resolution_witness :
    get_endpoint_config
        { api_key := "K", base_url := "https://b.example/v1",
          endpoints := [], default_endpoint_id := "main" }
        "https://u.example/v1/chat/completions"
      = ("https://b.example/v1", "K") :=
  (endpoint_resolution
      { api_key := "K", base_url := "https://b.example/v1",
        endpoints := [], default_endpoint_id := "main" }
      "https://u.example/v1/chat/completions").2.1 rfl

/-- C8 counterexample: on a non-2xx status with an unparseable body,
the error message is not exactly HTTP status colon raw body; the code
appends the request URL in parentheses. -/
theorem http_error_fallback_counterexample :
    (httpStatusErrorResponse 500 "oops"
        "https://api.openai.com/v1/chat/completions" none []).error
      = some "HTTP 500: oops (URL: https://api.openai.com/v1/chat/completions)" ∧
    (httpStatusErrorResponse 500 "oops"
        "https://api.openai.com/v1/chat/completions" none []).error
      ≠ some "HTTP 500: oops" := by
  exact ⟨rfl, by decide⟩

/-- C8 amended: on a non-2xx status the buffered call returns a record
with empty content whose error is the structured error.message string
when the body parses to an object of that shape, and otherwise is
exactly HTTP status colon raw body followed by the request URL in
parentheses; the streaming call returns no record on a non-2xx — its
handler raises ResponseNotRead on the unread streamed body and the
exception propagates out of chat_completion_stream. -/
theorem http_status_error_result (status : Nat) (bodyText endpoint : String)
    (rawRequest : List (String × JVal)) :
    (httpStatusErrorResponse status bodyText endpoint none rawRequest).content
      = "" ∧
    (httpStatusErrorResponse status bodyText endpoint none rawRequest).error
      = some ("HTTP " ++ toString status ++ ": " ++ bodyText ++ " (URL: "
          ++ endpoint ++ ")") ∧
    (∀ (kvs ekvs : List (String × JVal)) (m : String),
      jlookup kvs "error" = some (JVal.obj ekvs) →
      jlookup ekvs "message" = some (JVal.str m) →
      (httpStatusErrorResponse status bodyText endpoint
          (some (JVal.obj kvs)) rawRequest).error = some m ∧
      (httpStatusErrorResponse status bodyText endpoint
          (some (JVal.obj kvs)) rawRequest).content = "") ∧
    ∀ (s : Nat) (e : String) (req : List (String × JVal)),
      streamHttpStatusErrorOutcome s e req = none := by
  refine ⟨rfl, rfl, ?_, fun _ _ _ => rfl⟩
  intro kvs ekvs m h1 h2
  exact ⟨by simp [httpStatusErrorResponse, httpErrorMessage, h1, h2], rfl⟩

/-- C8 witness: a 429 with a structured rate-limit body surfaces the
provider message in buffered mode. -/
theorem http_status_error_result_witness :
    (httpStatusErrorResponse 429 "raw"
        "https://api.openai.com/v1/chat/completions"
        (some (JVal.obj [("error", JVal.obj [("message", JVal.str "rate limited")])]))
        []).error = some "rate limited" :=
  (((http_status_error_result 429 "raw"
      "https://api.openai.com/v1/chat/completions" []).2.2.1
    [("error", JVal.obj [("message", JVal.str "rate limited")])]
    [("message", JVal.str "rate limited")] "rate limited" rfl rfl)).1

/-- Field characterization of applying one non-raising line to the
loop state. -/
theorem streamStateAfterLine_fields (st : StreamLoopState) (e : StreamLineEffect) :
    (streamStateAfterLine st e).cancelled = st.cancelled ∧
    (streamStateAfterLine st e).poisoned = (st.poisoned || e.poison) ∧
    (streamStateAfterLine st e).done_receiving = (st.done_receiving || e.isDone) ∧
    (streamStateAfterLine st e).accumulated_content
      = st.accumulated_content ++ (e.append?.map Prod.fst).toList ∧
    (streamStateAfterLine st e).events = st.events ++ e.append?.toList := by
  rcases hu : e.usage? with _ | ⟨ct, pt⟩ <;> rcases ha : e.append? with _ | ⟨c, r⟩ <;>
    simp [streamStateAfterLine, streamStateAfterAppend, hu, ha]

/-- Loop characterization: with the cancellation flag never set and
only benign lines, the read loop succeeds, stays uncancelled and
unpoisoned, observes the done sentinel exactly when some line is the
sentinel, and accumulates exactly the content chunks and callback
events of the lines in order. -/
theorem runStreamLoop_ok_of_benign (decode : String → Option JVal)
    (cancelAt : Nat → Bool) (hc : ∀ j, cancelAt j = false) :
    ∀ (lines : List String) (i : Nat) (st : StreamLoopState),
      (∀ l ∈ lines, lineBenign decode l = true) →
      ∃ st2, runStreamLoop decode cancelAt i st lines = Except.ok st2 ∧
        st2.cancelled = st.cancelled ∧
        st2.poisoned = st.poisoned ∧
        st2.done_receiving
          = (st.done_receiving || lines.any (fun l => lineIsDone decode l)) ∧
        st2.accumulated_content
          = st.accumulated_content ++ lines.filterMap (lineContentChunk? decode) ∧
        st2.events
          = st.events ++ lines.filterMap (fun l => (streamLineEffect decode l).append?) := by
  intro lines
  induction lines with
  | nil =>
    intro i st _
    exact ⟨st, rfl, rfl, rfl, by simp, by simp, by simp⟩
  | cons line rest ih =>
    intro i st hb
    have hbl : lineBenign decode line = true := hb line (List.mem_cons_self _ _)
    have hbr : ∀ l ∈ rest, lineBenign decode l = true :=
      fun l hl => hb l (List.mem_cons_of_mem _ hl)
    have hbl2 : (streamLineEffect decode line).raise? = none
        ∧ (streamLineEffect decode line).poison = false := by
      have h := hbl
      unfold lineBenign at h
      rw [Bool.and_eq_true] at h
      refine ⟨Option.isNone_iff_eq_none.mp h.1, ?_⟩
      have h2 := h.2
      cases hpb : (streamLineEffect decode line).poison
      · rfl
      · rw [hpb] at h2
        simp at h2
    have hstep : processStreamLine decode st line
        = Except.ok (streamStateAfterLine st (streamLineEffect decode line)) := by
      unfold processStreamLine
      simp [hbl2.1]
    obtain ⟨st3, hrun, h1, hpois, h2, h3, h4⟩ :=
      ih (i + 1) (streamStateAfterLine st (streamLineEffect decode line)) hbr
    have hf := streamStateAfterLine_fields st (streamLineEffect decode line)
    refine ⟨st3, ?_, ?_, ?_, ?_, ?_, ?_⟩
    · simp [runStreamLoop, hc i, hstep, hrun]
    · rw [h1, hf.1]
    · rw [hpois, hf.2.1, hbl2.2, Bool.or_false]
    · rw [h2, hf.2.2.1]
      simp [List.any_cons, lineIsDone, Bool.or_assoc]
    · rw [h3, hf.2.2.2.1]
      rcases hch : (streamLineEffect decode line).append? with _ | ⟨c, r⟩ <;>
        simp [List.filterMap_cons, lineContentChunk?, hch, List.append_assoc]
    · rw [h4, hf.2.2.2.2]
      rcases hch : (streamLineEffect decode line).append? with _ | ⟨c, r⟩ <;>
        simp [List.filterMap_cons, hch, List.append_assoc]

/-- C7: a streamed body that ends without any DONE sentinel line,
without cancellation and with only benign lines (no in-loop exception
and no poisoning payload), still produces a result record whose error
is the text Stream ended unexpectedly and whose content is the join
of the content chunks of all well-formed chunk lines, in order: the
partial content is preserved. -/
theorem stream_ended_unexpectedly (decode : String → Option JVal)
    (cancelAt : Nat → Bool) (lines : List String)
    (rawRequest : List (String × JVal))
    (hc : ∀ j, cancelAt j = false)
    (hb : ∀ l ∈ lines, lineBenign decode l = true)
    (hd : ∀ l ∈ lines, lineIsDone decode l = false) :
    ∃ r, chatCompletionStreamOutcome decode cancelAt lines rawRequest = some r ∧
      r.error = some "Stream ended unexpectedly" ∧
      r.content = String.join (lines.filterMap (lineContentChunk? decode)) := by
  obtain ⟨st2, hrun, hcanc, hpois, hdone, hacc, _⟩ :=
    runStreamLoop_ok_of_benign decode cancelAt hc lines 0 initStreamState hb
  have hany : (lines.any fun l => lineIsDone decode l) = false := by
    rw [List.any_eq_false]
    intro l hl
    simp [hd l hl]
  have h1 : st2.cancelled = false := by rw [hcanc]; rfl
  have hp : st2.poisoned = false := by rw [hpois]; rfl
  have h2 : st2.done_receiving = false := by
    rw [hdone, hany]
    rfl
  have h3 : st2.accumulated_content = lines.filterMap (lineContentChunk? decode) := by
    rw [hacc]
    rfl
  refine ⟨{ content := String.join st2.accumulated_content
            prompt_tokens := st2.prompt_tokens_from_stream
            completion_tokens := st2.total_completion_tokens
            total_tokens := st2.prompt_tokens_from_stream + st2.total_completion_tokens
            response_time := 0
            raw_request := rawRequest
            raw_response := []
            reasoning := streamJoinedReasoning st2
            error := some "Stream ended unexpectedly" }, ?_, rfl, ?_⟩
  · unfold chatCompletionStreamOutcome
    rw [hrun]
    simp [hp, h1, h2]
  · exact congrArg String.join h3

/-- A chunk object of the shape the streaming parser expects, used by
concrete witnesses as the image of the abstract decode function. -/
def witnessChunk (c : String) : JVal :=
  JVal.obj
    [("choices", JVal.arr [JVal.obj [("delta", JVal.obj [("content", JVal.str c)])]])]

/-- A concrete decode table for witnesses: two recognizable payloads
decode to well-formed chunks, everything else fails to parse. -/
def witnessDecode : String → Option JVal := fun s =>
  if s = "CHUNK_A" then some (witnessChunk "Hello")
  else if s = "CHUNK_B" then some (witnessChunk " world")
  else none

/-- C7 witness: a concrete stream with one well-formed chunk, a blank
line, a comment line and an unparseable data line, and no DONE
sentinel. -/
theorem stream_ended_unexpectedly_witness :
    ∃ r, chatCompletionStreamOutcome witnessDecode (fun _ => false)
        ["data: CHUNK_A", "", ": keep-alive", "data: NOPE"] [] = some r ∧
      r.error = some "Stream ended unexpectedly" ∧
      r.content = "Hello" := by
  obtain ⟨r, hr, he, hcnt⟩ := stream_ended_unexpectedly witnessDecode
    (fun _ => false) ["data: CHUNK_A", "", ": keep-alive", "data: NOPE"] []
    (fun _ => rfl) (by decide) (by decide)
  refine ⟨r, hr, he, ?_⟩
  rw [hcnt]
  rfl

/-- C10: the DONE sentinel does not stop the read loop; for any
stream made of benign lines around a sentinel line, the chunks after
the sentinel are still appended to the accumulated content and
delivered to the per-chunk callback, and the call terminates as a
normal non-error result record. -/
theorem stream_chunks_after_done (decode : String → Option JVal)
    (cancelAt : Nat → Bool) (pre post : List String)
    (rawRequest : List (String × JVal))
    (hc : ∀ j, cancelAt j = false)
    (hb1 : ∀ l ∈ pre, lineBenign decode l = true)
    (hb2 : ∀ l ∈ post, lineBenign decode l = true) :
    (∃ r, chatCompletionStreamOutcome decode cancelAt
        (pre ++ "data: [DONE]" :: post) rawRequest = some r ∧
      r.error = none ∧
      r.content = String.join (pre.filterMap (lineContentChunk? decode)
          ++ post.filterMap (lineContentChunk? decode))) ∧
    ∃ st2, runStreamLoop decode cancelAt 0 initStreamState
        (pre ++ "data: [DONE]" :: post) = Except.ok st2 ∧
      st2.events = pre.filterMap (fun l => (streamLineEffect decode l).append?)
        ++ post.filterMap (fun l => (streamLineEffect decode l).append?) := by
  have hbenign : ∀ l ∈ pre ++ "data: [DONE]" :: post, lineBenign decode l = true := by
    intro l hl
    rcases List.mem_append.mp hl with h | h
    · exact hb1 l h
    · rcases List.mem_cons.mp h with h | h
      · rw [h]
        rfl
      · exact hb2 l h
  obtain ⟨st2, hrun, hcanc, hpois, hdone, hacc, hev⟩ :=
    runStreamLoop_ok_of_benign decode cancelAt hc
      (pre ++ "data: [DONE]" :: post) 0 initStreamState hbenign
  have hdl : lineIsDone decode "data: [DONE]" = true := rfl
  have hnd : lineContentChunk? decode "data: [DONE]" = none := rfl
  have hna : (streamLineEffect decode "data: [DONE]").append? = none := rfl
  have h1 : st2.cancelled = false := by rw [hcanc]; rfl
  have hp : st2.poisoned = false := by rw [hpois]; rfl
  have h2 : st2.done_receiving = true := by
    rw [hdone]
    simp [List.any_append, List.any_cons, hdl, initStreamState]
  have h3 : st2.accumulated_content
      = pre.filterMap (lineContentChunk? decode)
        ++ post.filterMap (lineContentChunk? decode) := by
    rw [hacc]
    simp [List.filterMap_append, List.filterMap_cons, hnd, initStreamState]
  have h4 : st2.events
      = pre.filterMap (fun l => (streamLineEffect decode l).append?)
        ++ post.filterMap (fun l => (streamLineEffect decode l).append?) := by
    rw [hev]
    simp [List.filterMap_append, List.filterMap_cons, hna, initStreamState]
  refine ⟨⟨{ content := String.join st2.accumulated_content
             prompt_tokens := st2.prompt_tokens_from_stream
             completion_tokens := st2.total_completion_tokens
             total_tokens := st2.prompt_tokens_from_stream + st2.total_completion_tokens
             response_time := 0
             raw_request := rawRequest
             raw_response :=
               [ ("streaming", JVal.bool true),
                 ("usage", JVal.obj
                   [ ("prompt_tokens", JVal.int st2.prompt_tokens_from_stream),
                     ("completion_tokens", JVal.int st2.total_completion_tokens),
                     ("total_tokens",
                       JVal.int (st2.prompt_tokens_from_stream + st2.total_completion_tokens)) ]),
                 ("response_time", JVal.num 0),
                 ("content", JVal.str (String.join st2.accumulated_content)),
                 ("reasoning",
                   (match streamJoinedReasoning st2 with
                    | none => JVal.null
                    | some r => JVal.str r)) ]
             reasoning := streamJoinedReasoning st2
             error := none }, ?_, rfl, ?_⟩, st2, hrun, h4⟩
  · unfold chatCompletionStreamOutcome
    rw [hrun]
    simp [hp, h1, h2]
  · exact congrArg String.join h3

/-- C10 witness: a concrete stream where a well-formed chunk follows
the DONE sentinel; its content is still appended and the result is a
normal termination. -/
theorem stream_chunks_after_done_witness :
    ∃ r, chatCompletionStreamOutcome witnessDecode (fun _ => false)
        (["data: CHUNK_A"] ++ "data: [DONE]" :: ["data: CHUNK_B"]) [] = some r ∧
      r.error = none ∧
      r.content = "Hello world" := by
  obtain ⟨⟨r, hr, he, hcnt⟩, _⟩ := stream_chunks_after_done witnessDecode
    (fun _ => false) ["data: CHUNK_A"] ["data: CHUNK_B"] []
    (fun _ => rfl) (by decide) (by decide)
  refine ⟨r, hr, he, ?_⟩
  rw [hcnt]
  rfl

/-- Join of a cons at the string level. -/
theorem stringJoinCons (s : String) (l : List String) :
    String.join (s :: l) = s ++ String.join l := by
  apply String.ext
  simp

/-- The step function skips a response with empty content. -/
theorem evalStep_empty (consider : Bool) (acc : String) (p : Nat × RespDict)
    (h : p.2.content = "") : evalStep consider acc p = acc := by
  unfold evalStep
  exact if_neg (not_not_intro h)

/-- The step function appends the numbered block of a response with
non-empty content. -/
theorem evalStep_nonempty (consider : Bool) (acc : String) (p : Nat × RespDict)
    (h : p.2.content ≠ "") :
    evalStep consider acc p = acc ++ respBlock consider p.1 p.2 := by
  unfold evalStep
  exact if_pos h

/-- A response with empty content contributes no block. -/
theorem evalSelect_empty (consider : Bool) (p : Nat × RespDict)
    (h : p.2.content = "") : evalSelect consider p = none := by
  unfold evalSelect
  exact if_neg (not_not_intro h)

/-- A response with non-empty content contributes its numbered
block. -/
theorem evalSelect_nonempty (consider : Bool) (p : Nat × RespDict)
    (h : p.2.content ≠ "") :
    evalSelect consider p = some (respBlock consider p.1 p.2) := by
  unfold evalSelect
  exact if_pos h

/-- The block-appending fold of the default evaluation prompt equals
the initial string followed by the join of the selected blocks. -/
theorem evalFoldAppend (consider : Bool) :
    ∀ (l : List (Nat × RespDict)) (a : String),
      l.foldl (evalStep consider) a
        = a ++ String.join (l.filterMap (evalSelect consider)) := by
  intro l
  induction l with
  | nil => intro a; simp [String.join]
  | cons x xs ih =>
    intro a
    by_cases h : x.2.content = ""
    · rw [List.foldl_cons, evalStep_empty consider a x h,
        List.filterMap_cons_none (evalSelect_empty consider x h), ih a]
    · rw [List.foldl_cons, evalStep_nonempty consider a x h,
        List.filterMap_cons_some (evalSelect_nonempty consider x h),
        ih (a ++ respBlock consider x.1 x.2), stringJoinCons,
        String.append_assoc]

/-- The number of selected blocks does not depend on the enumeration
start and equals the number of responses with non-empty content. -/
theorem evalBlocksLengthAux (consider : Bool) :
    ∀ (rs : List RespDict) (i : Nat),
      ((enumFrom i rs).filterMap (evalSelect consider)).length
        = (rs.filter (fun r => r.content ≠ "")).length := by
  intro rs
  induction rs with
  | nil => intro i; simp [enumFrom]
  | cons r rest ih =>
    intro i
    show ((List.filterMap (evalSelect consider)
        ((i, r) :: enumFrom (i + 1) rest))).length
      = (List.filter (fun x => decide (x.content ≠ "")) (r :: rest)).length
    by_cases h : r.content = ""
    · rw [List.filterMap_cons_none (evalSelect_empty consider (i, r) h),
        List.filter_cons_of_neg (by simp [h]), ih (i + 1)]
    · rw [List.filterMap_cons_some (evalSelect_nonempty consider (i, r) h),
        List.filter_cons_of_pos (by simp [h]), List.length_cons,
        List.length_cons, ih (i + 1)]

/-- C9: with no template, the evaluation prompt is the fixed header,
then exactly one numbered block per result with non-empty content (in
input order, numbered by input position, no block for any other
result), then the fixed trailing instructions; in particular three
results of which exactly the second has empty content (the errored
one, whose content is empty by the data-model invariant) produce
exactly two numbered blocks. -/
theorem evaluator_numbered_blocks :
    (∀ (sysp userp : String) (consider : Bool) (rs : List RespDict),
      buildEvalPromptDefault sysp userp rs consider
        = evalPromptHeader sysp userp ++ String.join (evalBlocks consider rs)
          ++ evalPromptTrailer) ∧
    (∀ (consider : Bool) (rs : List RespDict),
      (evalBlocks consider rs).length
        = (rs.filter (fun r => r.content ≠ "")).length) ∧
    (∀ (consider : Bool) (r1 r2 r3 : RespDict),
      r1.content ≠ "" → r2.content = "" → r3.content ≠ "" →
      evalBlocks consider [r1, r2, r3]
        = [respBlock consider 1 r1, respBlock consider 3 r3] ∧
      (evalBlocks consider [r1, r2, r3]).length = 2) := by
  refine ⟨?_, ?_, ?_⟩
  · intro sysp userp consider rs
    unfold buildEvalPromptDefault evalBlocks
    rw [evalFoldAppend]
  · intro consider rs
    unfold evalBlocks
    exact evalBlocksLengthAux consider rs 1
  · intro consider r1 r2 r3 h1 h2 h3
    have hblocks : evalBlocks consider [r1, r2, r3]
        = [respBlock consider 1 r1, respBlock consider 3 r3] := by
      show List.filterMap (evalSelect consider) [(1, r1), (2, r2), (3, r3)] = _
      rw [List.filterMap_cons_some (evalSelect_nonempty consider (1, r1) h1),
        List.filterMap_cons_none (evalSelect_empty consider (2, r2) h2),
        List.filterMap_cons_some (evalSelect_nonempty consider (3, r3) h3),
        List.filterMap_nil]
    exact ⟨hblocks, by rw [hblocks]; rfl⟩

/-- A concrete response dict for witnesses. -/
def sampleResp (c : String) : RespDict :=
  { content := c, model? := some "m", stats_response_time := some 1,
    stats_total_tokens := some 5, prompt_modifier := "" }

/-- C9 witness: three concrete results, the second with empty content,
give exactly the two blocks numbered 1 and 3. -/
theorem evaluator_numbered_blocks_witness :
    evalBlocks false [sampleResp "A", sampleResp "", sampleResp "B"]
      = [respBlock false 1 (sampleResp "A"), respBlock false 3 (sampleResp "B")] ∧
    (evalBlocks false [sampleResp "A", sampleResp "", sampleResp "B"]).length = 2 :=
  evaluator_numbered_blocks.2.2 false (sampleResp "A") (sampleResp "")
    (sampleResp "B") (by decide) rfl (by decide)

/-- C1: the claim fails on the code as written. Each parallel task
raises a TypeError before any network call, because _run_model passes
custom_api_token as the eighth positional argument of
chat_completion_stream (landing in the stop parameter) while also
passing stop by keyword; and the conversion of a task exception into a
synthetic error record itself raises a TypeError, because it passes a
reasoning keyword that the ModelStats dataclass does not declare — so
an exception aborts run_parallel instead of becoming a synthetic
result. -/
theorem run_parallel_exception_conversion_crashes :
    pythonKwargBindingError chatCompletionStreamParams
      runModelStreamCallPositionalCount runModelStreamCallKwargs = true ∧
    dataclassUnknownKwarg modelStatsFields runParallelSyntheticStatsKwargs
      = true := by
  decide

/-- C2: the claim fails on the code as written. The already-cancelled
fast path of run_single raises a TypeError (the ModelStats dataclass
has no reasoning field) instead of returning an immediate Cancelled
record, and on the non-cancelled path the call into
chat_completion_stream raises a TypeError (stop passed both
positionally, via custom_api_token, and by keyword) before any
network call, so no failure is ever carried in a returned record. -/
theorem run_single_crashes :
    dataclassUnknownKwarg modelStatsFields runModelCancelledStatsKwargs = true ∧
    pythonKwargBindingError chatCompletionStreamParams
      runModelStreamCallPositionalCount runModelStreamCallKwargs = true := by
  decide

/-- C3: the cancellation-wins-the-race overwrite itself is faithfully
present — with the flag set, a client result not already marked
Cancelled is overwritten to error Cancelled with empty content — but
the coordinator never delivers the result: the terminal ModelStats
construction raises a TypeError because of the undeclared reasoning
keyword (and the client call preceding it raises before returning at
all), so the claimed delivered record does not exist. -/
theorem cancellation_overwrite_policy :
    (∀ r : ModelResponse,
      (applyCancellationOverwrite true r).error = some "Cancelled" ∧
      (r.error ≠ some "Cancelled" →
        (applyCancellationOverwrite true r).content = "")) ∧
    dataclassUnknownKwarg modelStatsFields runModelFinalStatsKwargs = true := by
  constructor
  · intro r
    constructor
    · unfold applyCancellationOverwrite
      by_cases h : r.error = some "Cancelled" <;> simp [h]
    · intro h
      simp [applyCancellationOverwrite, h]
  · decide

/-- A concrete successful client result for the C3 witness. -/
def sampleModelResponse : ModelResponse :=
  { content := "ok", prompt_tokens := 1, completion_tokens := 2,
    total_tokens := 3, response_time := 0, raw_request := [],
    raw_response := [], reasoning := none, error := none }

/-- C3 witness: overwriting a concrete just-completed success under a
set cancellation flag yields error Cancelled and empty content. -/
theorem cancellation_overwrite_policy_witness :
    (applyCancellationOverwrite true sampleModelResponse).error
      = some "Cancelled" ∧
    (applyCancellationOverwrite true sampleModelResponse).content = "" := by
  have h := cancellation_overwrite_policy.1 sampleModelResponse
  exact ⟨h.1, h.2 (by decide)⟩
